import Mathlib

unseal Rat.add Rat.mul Rat.sub Rat.inv

/-!
Verification development for the 2D lightmap compositor of this repository.

The Rust sources under `src/` are shallowly embedded below:
* `src/lighting/types.rs` — occlusion extraction from shadow-casting meshes;
* `src/lighting/light.rs` — NaN-tolerant `min`/`max`, the slab ray–AABB cull
  test `intersect_aabb`, and the per-light multi-pass compositor
  `get_lightmap`;
* `src/main.rs` — the `lights` system that gathers inputs and invokes
  `get_lightmap`.

`f32` values are embedded as the type `F`: exact rationals for finite values
plus `inf`, `neginf`, and `nan` (the NaN constructor carries a payload so
that distinct NaN bit patterns remain distinguishable, as they are through
`f32::to_bits`).  Finite arithmetic is exact; IEEE rounding and the sign of
zero are not modelled — no claim settled here depends on them, only on the
propagation of NaN/∞ and on exact structural equalities.  Panics in the Rust
sources (`expect`, `unwrap`, out-of-range indexing) are embedded as
`Option`/`Except` failures.  The GPU backend is modelled symbolically: a
texture is the chain of render passes that produced it, and a freshly
created `wgpu` texture reads as zero (WebGPU mandates zero-initialization
of new textures).
-/

namespace A8

/-- Embedding of `f32`: NaN (with a payload standing for the bit pattern),
the two infinities, and exact finite values. -/
inductive F where
  | nan (payload : Nat)
  | neginf
  | inf
  | finite (q : ℚ)
deriving DecidableEq

/-- `f32::is_nan`. -/
def F.isNan : F → Bool
  | .nan _ => true
  | _ => false

/-- Whether a value is finite (neither NaN nor infinite). -/
def F.isFinite : F → Bool
  | .finite _ => true
  | _ => false

def F.zero : F := .finite 0

def F.one : F := .finite 1

def F.half : F := .finite (1 / 2)

def F.two : F := .finite 2

/-- IEEE addition on the embedded floats (exact on finite values). -/
def F.add : F → F → F
  | .nan p, _ => .nan p
  | _, .nan p => .nan p
  | .inf, .neginf => .nan 0
  | .neginf, .inf => .nan 0
  | .inf, _ => .inf
  | _, .inf => .inf
  | .neginf, _ => .neginf
  | _, .neginf => .neginf
  | .finite a, .finite b => .finite (a + b)

/-- IEEE subtraction on the embedded floats (exact on finite values). -/
def F.sub : F → F → F
  | .nan p, _ => .nan p
  | _, .nan p => .nan p
  | .inf, .inf => .nan 0
  | .neginf, .neginf => .nan 0
  | .inf, _ => .inf
  | _, .inf => .neginf
  | .neginf, _ => .neginf
  | _, .neginf => .inf
  | .finite a, .finite b => .finite (a - b)

/-- IEEE multiplication on the embedded floats (exact on finite values). -/
def F.mul : F → F → F
  | .nan p, _ => .nan p
  | _, .nan p => .nan p
  | .inf, .inf => .inf
  | .inf, .neginf => .neginf
  | .neginf, .inf => .neginf
  | .neginf, .neginf => .inf
  | .inf, .finite q => if q = 0 then .nan 0 else if 0 < q then .inf else .neginf
  | .finite q, .inf => if q = 0 then .nan 0 else if 0 < q then .inf else .neginf
  | .neginf, .finite q => if q = 0 then .nan 0 else if 0 < q then .neginf else .inf
  | .finite q, .neginf => if q = 0 then .nan 0 else if 0 < q then .neginf else .inf
  | .finite a, .finite b => .finite (a * b)

/-- IEEE division on the embedded floats: division by zero produces a signed
infinity, `0 / 0` and `∞ / ∞` produce NaN, exact on finite quotients. -/
def F.div : F → F → F
  | .nan p, _ => .nan p
  | _, .nan p => .nan p
  | .inf, .inf => .nan 0
  | .inf, .neginf => .nan 0
  | .neginf, .inf => .nan 0
  | .neginf, .neginf => .nan 0
  | .inf, .finite q => if q < 0 then .neginf else .inf
  | .neginf, .finite q => if q < 0 then .inf else .neginf
  | .finite _, .inf => .finite 0
  | .finite _, .neginf => .finite 0
  | .finite a, .finite b =>
      if b = 0 then if a = 0 then .nan 0 else if 0 < a then .inf else .neginf
      else .finite (a / b)

/-- IEEE strict less-than: any comparison involving NaN is `false`. -/
def F.lt : F → F → Bool
  | .nan _, _ => false
  | _, .nan _ => false
  | .neginf, .neginf => false
  | .neginf, _ => true
  | _, .neginf => false
  | .inf, _ => false
  | _, .inf => true
  | .finite a, .finite b => decide (a < b)

/-- `src/lighting/light.rs` lines 215–227: NaN-tolerant maximum.
`a > b` in Rust is IEEE greater-than, embedded as `F.lt b a`. -/
def max (a b : F) : F :=
  if a.isNan then b
  else if b.isNan then a
  else if F.lt b a then a else b

/-- `src/lighting/light.rs` lines 229–241: NaN-tolerant minimum. -/
def min (a b : F) : F :=
  if a.isNan then b
  else if b.isNan then a
  else if F.lt a b then a else b

/-- Embedding of `glam::Vec2` over the embedded floats. -/
structure FVec2 where
  x : F
  y : F
deriving DecidableEq

/-- Componentwise `Vec2` subtraction. -/
def FVec2.sub (a b : FVec2) : FVec2 := ⟨F.sub a.x b.x, F.sub a.y b.y⟩

/-- Componentwise `Vec2` division (`glam` `Div<Vec2>` is componentwise). -/
def FVec2.div (a b : FVec2) : FVec2 := ⟨F.div a.x b.x, F.div a.y b.y⟩

/-- `Vec2 * f32` scalar multiplication. -/
def FVec2.smul (a : FVec2) (s : F) : FVec2 := ⟨F.mul a.x s, F.mul a.y s⟩

/-- `src/lighting/light.rs` lines 243–245. -/
def max_vec2 (a b : FVec2) : FVec2 := ⟨max a.x b.x, max a.y b.y⟩

/-- `src/lighting/light.rs` lines 247–249. -/
def min_vec2 (a b : FVec2) : FVec2 := ⟨min a.x b.x, min a.y b.y⟩

/-- `src/lighting/light.rs` lines 251–259: slab-method ray–AABB test. -/
def intersect_aabb (ray_origin ray_dir box_min box_max : FVec2) : Bool :=
  let t_min := FVec2.div (FVec2.sub box_min ray_origin) ray_dir
  let t_max := FVec2.div (FVec2.sub box_max ray_origin) ray_dir
  let t1 := min_vec2 t_min t_max
  let t2 := max_vec2 t_min t_max
  let t_near := max t1.x t1.y
  let t_far := min t2.x t2.y
  F.lt t_near t_far

/-- Modelled from the spec's words (§4.4, for refinement comparison with
`intersect_aabb`): `tMin=(boxMin-o)/d`, `tMax=(boxMax-o)/d`,
`t1=min(tMin,tMax)` componentwise, `t2=max(tMin,tMax)` componentwise,
`tNear=max(t1.x,t1.y)`, `tFar=min(t2.x,t2.y)`; intersects iff
`tNear < tFar`. -/
def intersect_aabb_spec (o d boxMin boxMax : FVec2) : Bool :=
  let tMin := FVec2.div (FVec2.sub boxMin o) d
  let tMax := FVec2.div (FVec2.sub boxMax o) d
  let t1 := min_vec2 tMin tMax
  let t2 := max_vec2 tMin tMax
  let tNear := max t1.x t1.y
  let tFar := min t2.x t2.y
  F.lt tNear tFar

/-- Embedding of `glam::Vec3` over the embedded floats. -/
structure FVec3 where
  x : F
  y : F
  z : F
deriving DecidableEq

def FVec3.zero : FVec3 := ⟨F.zero, F.zero, F.zero⟩

/-- Componentwise `Vec3` addition. -/
def FVec3.add (a b : FVec3) : FVec3 := ⟨F.add a.x b.x, F.add a.y b.y, F.add a.z b.z⟩

/-- Componentwise `Vec3` subtraction. -/
def FVec3.sub (a b : FVec3) : FVec3 := ⟨F.sub a.x b.x, F.sub a.y b.y, F.sub a.z b.z⟩

/-- `Vec3 * f32` scalar multiplication. -/
def FVec3.smul (a : FVec3) (s : F) : FVec3 := ⟨F.mul a.x s, F.mul a.y s, F.mul a.z s⟩

/-- Bevy's `Transform`, embedded by the only two operations the sources use:
its action on points (`transform_point`, also `Mul<Vec3>`) and its world
translation. -/
structure Transform where
  translation : FVec3
  transformPoint : FVec3 → FVec3

/-- A Bevy `Mesh` carrying triangle-list indices and an `f32x3` position
attribute.  The sources `unwrap()` the presence of both; meshes without
them are outside the embedded domain. -/
structure Mesh where
  indices : List Nat
  positions : List FVec3

/-- `src/lighting/types.rs` lines 20–23: an occluder edge.  (This is the
struct as declared there — it has no visibility field.) -/
structure OcclusionData where
  start : FVec2
  «end» : FVec2
deriving DecidableEq

/-- The triangle-edge loop of `shadow_caster_to_occlusion_data`
(`src/lighting/types.rs` lines 36–49): for each group of three consecutive
indices, look the vertices up (Rust `Vec` indexing panics out of range,
embedded as `none`) and emit the edges `(v0,v1)`, `(v1,v2)`, `(v2,v0)`.
A trailing group of fewer than three indices is ignored, as by
`0..ind.len()/3`. -/
def occlusions_of_indices (vertices : List FVec2) : List Nat → Option (List OcclusionData)
  | i0 :: i1 :: i2 :: rest => do
      let v0 ← vertices.get? i0
      let v1 ← vertices.get? i1
      let v2 ← vertices.get? i2
      let tail ← occlusions_of_indices vertices rest
      pure (⟨v0, v1⟩ :: ⟨v1, v2⟩ :: ⟨v2, v0⟩ :: tail)
  | _ => pure []

/-- `src/lighting/types.rs` lines 25–60.  The position attribute is read as
`(x, y)` pairs; the edge list is built per triangle and then every segment
is mapped through the entity transform.  NOTE (faithful to the source): the
map body computes **both** `start` and `end` from `o.start`
(line 54 repeats line 53's expression), so the original `end` vertex is
discarded. -/
def shadow_caster_to_occlusion_data (transform : Transform) (mesh : Mesh) :
    Option (List OcclusionData) :=
  let vertices := mesh.positions.map (fun p => FVec2.mk p.x p.y)
  (occlusions_of_indices vertices mesh.indices).map (fun occlusions =>
    occlusions.map (fun o =>
      let start := transform.transformPoint (FVec3.mk o.start.x o.start.y F.zero)
      let «end» := transform.transformPoint (FVec3.mk o.start.x o.start.y F.zero)
      OcclusionData.mk (FVec2.mk start.x start.y) (FVec2.mk «end».x «end».y)))

/-- Bevy `Color`, embedded by its RGBA channel accessors. -/
structure Color where
  r : F
  g : F
  b : F
  a : F
deriving DecidableEq

/-- `src/lighting/types.rs` lines 68–73: one light sample. -/
structure LightData where
  pos : FVec2
  intensity : F
  color : Color
deriving DecidableEq

/-- The occluder record consumed by `get_lightmap`.  `light.rs` reads a
`visibility` field from its occlusions (line 338) which the
`OcclusionData` struct in `types.rs` does not declare (the snapshot is
inconsistent; `main.rs`'s `ShadowCaster` does carry `visibility`), so the
compositor's input is modelled as its own record with the three fields
`light.rs` actually reads. -/
structure OcclusionSegment where
  start : FVec2
  «end» : FVec2
  visibility : F
deriving DecidableEq

/-- `src/lighting/light.rs` lines 13–18: one vertex, a 3-float position
(x, y, weight flag) and a 2-float texture coordinate. -/
structure Vertex where
  position : F × F × F
  tex_coords : F × F
deriving DecidableEq

/-- `src/lighting/light.rs` lines 208–213: the per-light uniform block. -/
structure LightUniform where
  data : F × F × F × F
  last : F × F × F × F
deriving DecidableEq

/-- A `wgpu` clear color (`wgpu::Color` is four `f64` channels; only the
exact constants 0.0 and 1.0 occur).  Also used for a pixel value whose
channels are uniform across the output raster. -/
structure Color4 where
  r : ℚ
  g : ℚ
  b : ℚ
  a : ℚ
deriving DecidableEq

/-- `wgpu::LoadOp` for a render-pass color attachment. -/
inductive LoadOp where
  | clear (c : Color4)
  | load
deriving DecidableEq

/-- The two render pipelines built in `WGPUState::default`. -/
inductive Pipeline where
  | shadowMask
  | addLight
deriving DecidableEq

/-- A texture, modelled symbolically as the chain of render passes that
produced it.  `created` is a texture fresh out of
`device.create_texture` (WebGPU zero-initializes it, so it reads as
all-zero); `renderPass base load verts input` is the texture after a render
pass over previous contents `base` with the given load op, drawn vertex
list, and optionally bound input texture. -/
inductive Tex where
  | created
  | renderPass (base : Tex) (ld : LoadOp) (verts : List Vertex) (input : Option Tex)

/-- One recorded render pass of the per-light loop. -/
structure Pass where
  pipeline : Pipeline
  load : LoadOp
  verts : List Vertex
  uniform : Option LightUniform

/-- The clear value of `src/lighting/light.rs` lines 314–319:
fully lit, zero shadow. -/
def clearColor : Color4 := ⟨1, 0, 0, 0⟩

/-- The full-viewport quad of `src/lighting/light.rs` lines 438–463,
drawn by every add-light pass. -/
def fullscreenQuad : List Vertex :=
  [⟨(F.sub F.zero F.one, F.sub F.zero F.one, F.zero), (F.zero, F.one)⟩,
   ⟨(F.one, F.sub F.zero F.one, F.zero), (F.one, F.one)⟩,
   ⟨(F.one, F.one, F.zero), (F.one, F.zero)⟩,
   ⟨(F.sub F.zero F.one, F.sub F.zero F.one, F.zero), (F.zero, F.one)⟩,
   ⟨(F.one, F.one, F.zero), (F.one, F.zero)⟩,
   ⟨(F.sub F.zero F.one, F.one, F.zero), (F.zero, F.zero)⟩]

/-- `src/lighting/light.rs` lines 398–406: the uniform for the light at
index `i` out of `n`; the flag component is `1.0` exactly when
`i == n - 1`. -/
def lightUniform (light : LightData) (i n : Nat) : LightUniform :=
  ⟨(light.color.r, light.color.g, light.color.b, light.intensity),
   (if i = n - 1 then F.one else F.zero, F.zero, F.zero, F.zero)⟩

/-- `src/lighting/light.rs` lines 323–366, body of the per-occlusion loop:
cull the occluder against the viewport box along the two rays toward its
endpoints; if either ray hits, emit the six shadow-skirt vertices
(start near, start far, end near, end near, start far, end far), all in
normalized device coordinates, all carrying `(1 - visibility, 0)` texture
coordinates. -/
def occVerts (light : LightData) (camera_pos world_window_size bottom_left top_right : FVec2)
    (occlusion : OcclusionSegment) : List Vertex :=
  let d1 := FVec2.sub occlusion.start light.pos
  let d2 := FVec2.sub occlusion.«end» light.pos
  if intersect_aabb occlusion.start d1 bottom_left top_right
      || intersect_aabb occlusion.«end» d2 bottom_left top_right then
    let occlusion_start :=
      FVec2.div (FVec2.sub occlusion.start camera_pos) (FVec2.smul world_window_size F.half)
    let occlusion_end :=
      FVec2.div (FVec2.sub occlusion.«end» camera_pos) (FVec2.smul world_window_size F.half)
    let light_pos :=
      FVec2.div (FVec2.sub light.pos camera_pos) (FVec2.smul world_window_size F.half)
    let d1 := FVec2.sub occlusion_start light_pos
    let d2 := FVec2.sub occlusion_end light_pos
    [⟨(occlusion_start.x, occlusion_start.y, F.one), (F.sub F.one occlusion.visibility, F.zero)⟩,
     ⟨(d1.x, d1.y, F.zero), (F.sub F.one occlusion.visibility, F.zero)⟩,
     ⟨(occlusion_end.x, occlusion_end.y, F.one), (F.sub F.one occlusion.visibility, F.zero)⟩,
     ⟨(occlusion_end.x, occlusion_end.y, F.one), (F.sub F.one occlusion.visibility, F.zero)⟩,
     ⟨(d1.x, d1.y, F.zero), (F.sub F.one occlusion.visibility, F.zero)⟩,
     ⟨(d2.x, d2.y, F.zero), (F.sub F.one occlusion.visibility, F.zero)⟩]
  else []

/-- The shadow-mask vertex list for one light: all skirts of all included
occluders concatenated in input order (the `verts` vector of
`src/lighting/light.rs` lines 322–366). -/
def shadowVerts (light : LightData) (occlusions : List OcclusionSegment)
    (camera_pos world_window_size bottom_left top_right : FVec2) : List Vertex :=
  occlusions.flatMap (occVerts light camera_pos world_window_size bottom_left top_right)

/-- The per-light loop of `src/lighting/light.rs` lines 320–496, recorded
as a pass trace plus the final accumulation texture.  `op` is the mutable
load op (initially the clear, reassigned to `Load` inside every iteration
after pass A's descriptor is built); `tex` is the mutable `texture`
variable; pass B always targets a fresh texture with `LoadOp::Load`,
binding pass A's target as input, and that fresh texture becomes the next
iteration's `tex`. -/
def lightLoop (occlusions : List OcclusionSegment)
    (camera_pos world_window_size bottom_left top_right : FVec2) (n : Nat) :
    List LightData → Nat → LoadOp → Tex → List Pass × Tex
  | [], _, _, tex => ([], tex)
  | light :: rest, i, op, tex =>
      let verts := shadowVerts light occlusions camera_pos world_window_size bottom_left top_right
      let texA := Tex.renderPass tex op verts none
      let u := lightUniform light i n
      let outTex := Tex.renderPass Tex.created LoadOp.load fullscreenQuad (some texA)
      let k := lightLoop occlusions camera_pos world_window_size bottom_left top_right n
        rest (i + 1) LoadOp.load outTex
      (⟨Pipeline.shadowMask, op, verts, none⟩ ::
        ⟨Pipeline.addLight, LoadOp.load, fullscreenQuad, some u⟩ :: k.1, k.2)

/-- The primary window, embedded by the two readings `get_lightmap`
performs on it. -/
structure Window where
  width : F
  height : F

/-- Configuration failures of a frame: the `expect("No primary window")` in
`get_lightmap` and the panicking `camera.single()` in `main.rs`'s `lights`
system, embedded as errors. -/
inductive ConfigError where
  | noPrimaryWindow
  | noCamera
deriving DecidableEq

/-- The observable outcome of `get_lightmap`: the recorded pass trace and
the final accumulation texture (which lines 498–516 copy verbatim into the
exported output buffer). -/
structure RenderOut where
  passes : List Pass
  finalTex : Tex

/-- `src/lighting/light.rs` lines 261–516, `get_lightmap`.  The window
query's `get_single()` failure is a configuration error; the viewport is
derived from the window extents and the camera transform; then the
per-light loop runs starting from a freshly created texture and an initial
clear op. -/
def get_lightmap (window : Option Window) (lights : List LightData)
    (occlusions : List OcclusionSegment) (camera_transform : Transform) :
    Except ConfigError RenderOut :=
  match window with
  | none => Except.error ConfigError.noPrimaryWindow
  | some w =>
      let window_extents : FVec3 := ⟨w.width, w.height, F.zero⟩
      let bottom_left :=
        camera_transform.transformPoint (FVec3.sub FVec3.zero (FVec3.smul window_extents F.half))
      let top_right :=
        camera_transform.transformPoint (FVec3.add FVec3.zero (FVec3.smul window_extents F.half))
      let world_window_size := FVec3.sub top_right bottom_left
      let world_window_size2 := FVec2.mk world_window_size.x world_window_size.y
      let bottom_left2 := FVec2.mk bottom_left.x bottom_left.y
      let top_right2 := FVec2.mk top_right.x top_right.y
      let camera_pos :=
        FVec2.mk camera_transform.translation.x camera_transform.translation.y
      let r := lightLoop occlusions camera_pos world_window_size2 bottom_left2 top_right2
        lights.length lights 0 (LoadOp.clear clearColor) Tex.created
      Except.ok ⟨r.1, r.2⟩

/-- `src/main.rs` lines 46–59, the `lights` system: gathers the per-frame
light and occluder lists (the ECS queries are the host runtime; their
results are taken as inputs) and calls `get_lightmap` with
`camera.single()`, which panics — embedded as a configuration error — when
no camera exists. -/
def lights_system (camera : Option Transform) (window : Option Window)
    (lights : List LightData) (occlusions : List OcclusionSegment) :
    Except ConfigError RenderOut :=
  match camera with
  | none => Except.error ConfigError.noCamera
  | some c => get_lightmap window lights occlusions c

/-- The load ops of the shadow-mask passes of a trace, in order. -/
def shadowMaskLoads (passes : List Pass) : List LoadOp :=
  (passes.filter (fun p => decide (p.pipeline = Pipeline.shadowMask))).map Pass.load

/-- The light uniforms bound by the add-light passes of a trace, in order. -/
def addLightUniforms (passes : List Pass) : List LightUniform :=
  passes.filterMap Pass.uniform

/-- The pixel value a texture reads back as, when it is uniform across the
raster and determined without rasterizing geometry: a freshly created
texture reads zero (WebGPU zero-initialization); a pass that drew nothing
yields its clear color, or its base's uniform value under `LoadOp::Load`.
A pass that drew geometry is `none` (pixel values then depend on the
shaders). -/
def uniformPixel : Tex → Option Color4
  | .created => some ⟨0, 0, 0, 0⟩
  | .renderPass base ld verts _ =>
      match verts with
      | [] =>
          match ld with
          | .clear c => some c
          | .load => uniformPixel base
      | _ :: _ => none

/-- The exported lightmap's uniform pixel value: lines 498–536 copy the
final texture into the output buffer unchanged, so the exported raster
reads exactly the final texture's contents. -/
def exportedPixel (r : RenderOut) : Option Color4 :=
  uniformPixel r.finalTex

/-- An identity transform: zero translation, identity point action.
Used as a concrete sample input. -/
def idTransform : Transform := ⟨FVec3.zero, fun v => v⟩

/-- A one-triangle sample mesh with vertices `(0,0)`, `(1,0)`, `(0,1)`. -/
def triMesh : Mesh :=
  ⟨[0, 1, 2],
   [⟨F.finite 0, F.finite 0, F.finite 0⟩,
    ⟨F.finite 1, F.finite 0, F.finite 0⟩,
    ⟨F.finite 0, F.finite 1, F.finite 0⟩]⟩

theorem F.isFinite_sub {a b : F} (ha : a.isFinite = true) (hb : b.isFinite = true) :
    (F.sub a b).isFinite = true := by
  cases a <;> cases b <;> simp_all [F.isFinite, F.sub]

theorem F.isFinite_div {a b : F} (ha : a.isFinite = true) (hb : b.isFinite = true)
    (h0 : b ≠ F.zero) : (F.div a b).isFinite = true := by
  cases a with
  | finite p =>
      cases b with
      | finite q =>
          have hq : q ≠ 0 := fun h => h0 (by simp [F.zero, h])
          simp [F.div, hq, F.isFinite]
      | nan _ => simp [F.isFinite] at hb
      | inf => simp [F.isFinite] at hb
      | neginf => simp [F.isFinite] at hb
  | nan _ => simp [F.isFinite] at ha
  | inf => simp [F.isFinite] at ha
  | neginf => simp [F.isFinite] at ha

theorem F.isFinite_mul_half {w : F} (hw : w.isFinite = true) :
    (F.mul w F.half).isFinite = true := by
  cases w <;> simp_all [F.isFinite, F.mul, F.half]

theorem F.mul_half_ne_zero {w : F} (hw : w.isFinite = true) (h0 : w ≠ F.zero) :
    F.mul w F.half ≠ F.zero := by
  cases w with
  | finite q =>
      have hq : q ≠ 0 := fun h => h0 (by simp [F.zero, h])
      simp [F.mul, F.half, F.zero]
      intro h
      exact hq (by linarith [h])
  | nan _ => simp [F.isFinite] at hw
  | inf => simp [F.isFinite] at hw
  | neginf => simp [F.isFinite] at hw

theorem F.isNan_eq_false_of_isFinite {a : F} (h : a.isFinite = true) : a.isNan = false := by
  cases a <;> simp_all [F.isFinite, F.isNan]

/-- Multiplying by the float `0.5` agrees with dividing by the float `2`
(this bridges the source's `* 0.5` and the spec's `/ 2`). -/
theorem F.mul_half_eq_div_two (w : F) : F.mul w F.half = F.div w F.two := by
  cases w with
  | finite q =>
      have h2 : (2 : ℚ) ≠ 0 := by norm_num
      simp [F.mul, F.div, F.half, F.two, h2]
      ring
  | nan p => simp [F.mul, F.div, F.half, F.two]
  | inf => simp [F.mul, F.div, F.half, F.two]; norm_num
  | neginf => simp [F.mul, F.div, F.half, F.two]; norm_num

/-- The componentwise form of `F.mul_half_eq_div_two` on `Vec2`. -/
theorem FVec2.smul_half_eq_div_two (w : FVec2) :
    FVec2.smul w F.half = FVec2.mk (F.div w.x F.two) (F.div w.y F.two) := by
  simp [FVec2.smul, F.mul_half_eq_div_two]

/-- Claim C1 (status: code bug): the spec requires each emitted segment's
end endpoint to be the transform applied to the *second* vertex of the
edge; `src/lighting/types.rs` line 54 instead recomputes it from
`o.start`.  Evaluating the embedded source on the identity transform and
the sample triangle: the first triangle edge should be `((0,0),(1,0))` but
comes out `((0,0),(0,0))`, and `(0,0)` differs from the transformed second
vertex `(1,0)`. -/
theorem C1_end_endpoint_eval :
    shadow_caster_to_occlusion_data idTransform triMesh =
      some [⟨⟨F.finite 0, F.finite 0⟩, ⟨F.finite 0, F.finite 0⟩⟩,
            ⟨⟨F.finite 1, F.finite 0⟩, ⟨F.finite 1, F.finite 0⟩⟩,
            ⟨⟨F.finite 0, F.finite 1⟩, ⟨F.finite 0, F.finite 1⟩⟩] ∧
    FVec2.mk (F.finite 0) (F.finite 0) ≠ FVec2.mk (F.finite 1) (F.finite 0) := by
  constructor
  · decide
  · decide

/-- Claim C2, counterexample to the claim as stated: when both operands
are NaN the helpers return the *second* operand, not the first — on the
distinct NaN bit patterns `nan 0` and `nan 1`, both `max` and `min` return
`nan 1`, which differs from the first operand `nan 0`. -/
theorem C2_counterexample :
    max (F.nan 0) (F.nan 1) = F.nan 1 ∧ min (F.nan 0) (F.nan 1) = F.nan 1 ∧
    F.nan 1 ≠ F.nan 0 := by
  decide

/-- Claim C2 as amended: for every pair of floats, `max` and `min` return
the non-NaN operand when exactly one operand is NaN, and return the
*second* operand `b` when both are NaN. -/
theorem C2_nan_min_max (a b : F) :
    ((a.isNan = true ∧ b.isNan = false) → max a b = b ∧ min a b = b) ∧
    ((a.isNan = false ∧ b.isNan = true) → max a b = a ∧ min a b = a) ∧
    (a.isNan = true → b.isNan = true → max a b = b ∧ min a b = b) := by
  cases a <;> cases b <;> simp [A8.max, A8.min, F.isNan]

theorem C2_witness :
    max (F.nan 0) (F.finite 3) = F.finite 3 ∧ min (F.nan 0) (F.finite 3) = F.finite 3 :=
  (C2_nan_min_max (F.nan 0) (F.finite 3)).1 ⟨rfl, rfl⟩

/-- Claim C9: if no primary window or no camera exists, the frame's
lightmap computation fails with a configuration error (the sources panic
with a diagnostic, embedded as `Except.error`) instead of producing a
lightmap. -/
theorem C9_config_error (camera : Option Transform) (window : Option Window)
    (lights : List LightData) (occlusions : List OcclusionSegment)
    (h : window = none ∨ camera = none) :
    lights_system camera window lights occlusions = Except.error ConfigError.noCamera ∨
    lights_system camera window lights occlusions = Except.error ConfigError.noPrimaryWindow := by
  cases camera with
  | none => exact Or.inl rfl
  | some c =>
      cases window with
      | none => exact Or.inr rfl
      | some w => rcases h with h | h <;> simp at h

theorem C9_witness :
    lights_system (some idTransform) none [] [] = Except.error ConfigError.noCamera ∨
    lights_system (some idTransform) none [] [] = Except.error ConfigError.noPrimaryWindow :=
  C9_config_error (some idTransform) none [] [] (Or.inl rfl)

/-- Claim C10: every `OcclusionData` returned by
`shadow_caster_to_occlusion_data` has `start = end`, and the list is the
raw triangle-edge list with both endpoints replaced by the transform
applied to each segment's original start point. -/
theorem C10_zero_length_segments (t : Transform) (m : Mesh) (res : List OcclusionData)
    (h : shadow_caster_to_occlusion_data t m = some res) :
    (∀ o ∈ res, o.start = o.«end») ∧
    (∃ raw, occlusions_of_indices (m.positions.map (fun p => FVec2.mk p.x p.y)) m.indices =
        some raw ∧
      res = raw.map (fun o =>
        let q := t.transformPoint (FVec3.mk o.start.x o.start.y F.zero)
        OcclusionData.mk (FVec2.mk q.x q.y) (FVec2.mk q.x q.y))) := by
  unfold shadow_caster_to_occlusion_data at h
  obtain ⟨raw, hraw, hres⟩ := Option.map_eq_some'.mp h
  constructor
  · intro o ho
    rw [← hres] at ho
    obtain ⟨a, _, rfl⟩ := List.mem_map.mp ho
    rfl
  · exact ⟨raw, hraw, hres.symm⟩

theorem C10_witness :
    (OcclusionData.mk ⟨F.finite 1, F.finite 0⟩ ⟨F.finite 1, F.finite 0⟩).start =
      (OcclusionData.mk ⟨F.finite 1, F.finite 0⟩ ⟨F.finite 1, F.finite 0⟩).«end» :=
  (C10_zero_length_segments idTransform triMesh
      [⟨⟨F.finite 0, F.finite 0⟩, ⟨F.finite 0, F.finite 0⟩⟩,
       ⟨⟨F.finite 1, F.finite 0⟩, ⟨F.finite 1, F.finite 0⟩⟩,
       ⟨⟨F.finite 0, F.finite 1⟩, ⟨F.finite 0, F.finite 1⟩⟩] (by decide)).1
    ⟨⟨F.finite 1, F.finite 0⟩, ⟨F.finite 1, F.finite 0⟩⟩ (by decide)

/-- Claim C3: an occluder contributes shadow geometry for a light exactly
when at least one of the two rays — origins at the occluder endpoints,
directions `start - light.pos` and `end - light.pos` — intersects the
viewport box; `intersect_aabb` coincides with the spec's slab-method
formula; and a light's vertex list is the concatenation of the
per-occluder contributions. -/
theorem C3_cull_iff (light : LightData) (cp wws bl tr : FVec2) (occ : OcclusionSegment) :
    (occVerts light cp wws bl tr occ ≠ [] ↔
      (intersect_aabb occ.start (FVec2.sub occ.start light.pos) bl tr
        || intersect_aabb occ.«end» (FVec2.sub occ.«end» light.pos) bl tr) = true) ∧
    (∀ o d bmin bmax, intersect_aabb o d bmin bmax = intersect_aabb_spec o d bmin bmax) ∧
    (∀ occlusions, shadowVerts light occlusions cp wws bl tr =
      occlusions.flatMap (occVerts light cp wws bl tr)) := by
  refine ⟨?_, fun o d bmin bmax => rfl, fun occlusions => rfl⟩
  by_cases h : (intersect_aabb occ.start (FVec2.sub occ.start light.pos) bl tr
      || intersect_aabb occ.«end» (FVec2.sub occ.«end» light.pos) bl tr) = true
  · simp [occVerts, h]
  · simp [occVerts, h]

theorem C3_witness :
    occVerts ⟨⟨F.finite 0, F.finite 0⟩, F.finite 1, ⟨F.one, F.zero, F.zero, F.one⟩⟩
      ⟨F.finite 0, F.finite 0⟩ ⟨F.finite 2, F.finite 2⟩
      ⟨F.finite (-1), F.finite (-1)⟩ ⟨F.finite 1, F.finite 1⟩
      ⟨⟨F.finite 0, F.finite 0⟩, ⟨F.finite 0, F.finite 0⟩, F.one⟩ ≠ [] :=
  (C3_cull_iff ⟨⟨F.finite 0, F.finite 0⟩, F.finite 1, ⟨F.one, F.zero, F.zero, F.one⟩⟩
      ⟨F.finite 0, F.finite 0⟩ ⟨F.finite 2, F.finite 2⟩
      ⟨F.finite (-1), F.finite (-1)⟩ ⟨F.finite 1, F.finite 1⟩
      ⟨⟨F.finite 0, F.finite 0⟩, ⟨F.finite 0, F.finite 0⟩, F.one⟩).1.mpr (by decide)

/-- Claim C5: for an included occluder, the builder emits exactly the six
vertices `(start near, start far, end near, end near, start far, end far)`
where each point is mapped to normalized device coordinates by
`(p - cameraPos) / (worldWindowSize / 2)`, near vertices carry weight 1.0,
far vertices are the NDC endpoint minus the NDC light position with weight
0.0, and every vertex carries texture coordinate `(1 - visibility, 0)`. -/
theorem C5_shadow_quad (light : LightData) (cp wws bl tr : FVec2) (occ : OcclusionSegment)
    (h : (intersect_aabb occ.start (FVec2.sub occ.start light.pos) bl tr
      || intersect_aabb occ.«end» (FVec2.sub occ.«end» light.pos) bl tr) = true) :
    occVerts light cp wws bl tr occ =
      (let halfSize := FVec2.mk (F.div wws.x F.two) (F.div wws.y F.two)
       let s := FVec2.div (FVec2.sub occ.start cp) halfSize
       let e := FVec2.div (FVec2.sub occ.«end» cp) halfSize
       let lp := FVec2.div (FVec2.sub light.pos cp) halfSize
       let sf := FVec2.sub s lp
       let ef := FVec2.sub e lp
       let tc := (F.sub F.one occ.visibility, F.zero)
       [⟨(s.x, s.y, F.one), tc⟩,
        ⟨(sf.x, sf.y, F.zero), tc⟩,
        ⟨(e.x, e.y, F.one), tc⟩,
        ⟨(e.x, e.y, F.one), tc⟩,
        ⟨(sf.x, sf.y, F.zero), tc⟩,
        ⟨(ef.x, ef.y, F.zero), tc⟩]) := by
  simp only [occVerts, h, if_true, FVec2.smul_half_eq_div_two]

theorem C5_witness :
    occVerts ⟨⟨F.finite 0, F.finite 0⟩, F.finite 1, ⟨F.one, F.zero, F.zero, F.one⟩⟩
      ⟨F.finite 0, F.finite 0⟩ ⟨F.finite 2, F.finite 2⟩
      ⟨F.finite (-1), F.finite (-1)⟩ ⟨F.finite 1, F.finite 1⟩
      ⟨⟨F.finite 0, F.finite 0⟩, ⟨F.finite 1, F.finite 0⟩, F.one⟩ =
      (let halfSize := FVec2.mk (F.div (F.finite 2) F.two) (F.div (F.finite 2) F.two)
       let s := FVec2.div (FVec2.sub ⟨F.finite 0, F.finite 0⟩ ⟨F.finite 0, F.finite 0⟩) halfSize
       let e := FVec2.div (FVec2.sub ⟨F.finite 1, F.finite 0⟩ ⟨F.finite 0, F.finite 0⟩) halfSize
       let lp := FVec2.div (FVec2.sub ⟨F.finite 0, F.finite 0⟩ ⟨F.finite 0, F.finite 0⟩) halfSize
       let sf := FVec2.sub s lp
       let ef := FVec2.sub e lp
       let tc := (F.sub F.one F.one, F.zero)
       [⟨(s.x, s.y, F.one), tc⟩,
        ⟨(sf.x, sf.y, F.zero), tc⟩,
        ⟨(e.x, e.y, F.one), tc⟩,
        ⟨(e.x, e.y, F.one), tc⟩,
        ⟨(sf.x, sf.y, F.zero), tc⟩,
        ⟨(ef.x, ef.y, F.zero), tc⟩]) :=
  C5_shadow_quad ⟨⟨F.finite 0, F.finite 0⟩, F.finite 1, ⟨F.one, F.zero, F.zero, F.one⟩⟩
    ⟨F.finite 0, F.finite 0⟩ ⟨F.finite 2, F.finite 2⟩
    ⟨F.finite (-1), F.finite (-1)⟩ ⟨F.finite 1, F.finite 1⟩
    ⟨⟨F.finite 0, F.finite 0⟩, ⟨F.finite 1, F.finite 0⟩, F.one⟩ (by decide)

/-- Claim C8: the slab cull test is total — it returns a boolean on every
input, including degenerate rays whose slab divisions produce ±∞ or NaN —
and for finite scene inputs (occluder endpoints, light position, camera
position, and a finite nonzero world window size) an included occluder,
degenerate or not, never produces NaN vertex position coordinates. -/
theorem C8_degenerate_safe (light : LightData) (cp wws bl tr : FVec2) (occ : OcclusionSegment)
    (hsx : occ.start.x.isFinite = true) (hsy : occ.start.y.isFinite = true)
    (hex : occ.«end».x.isFinite = true) (hey : occ.«end».y.isFinite = true)
    (hlx : light.pos.x.isFinite = true) (hly : light.pos.y.isFinite = true)
    (hcx : cp.x.isFinite = true) (hcy : cp.y.isFinite = true)
    (hwx : wws.x.isFinite = true) (hwy : wws.y.isFinite = true)
    (hwx0 : wws.x ≠ F.zero) (hwy0 : wws.y ≠ F.zero) :
    (∀ o d : FVec2, intersect_aabb o d bl tr = true ∨ intersect_aabb o d bl tr = false) ∧
    (∀ v ∈ occVerts light cp wws bl tr occ,
      v.position.1.isNan = false ∧ v.position.2.1.isNan = false ∧
      v.position.2.2.isNan = false) := by
  constructor
  · intro o d
    cases intersect_aabb o d bl tr
    · exact Or.inr rfl
    · exact Or.inl rfl
  · have hdx : (F.mul wws.x F.half).isFinite = true := F.isFinite_mul_half hwx
    have hdy : (F.mul wws.y F.half).isFinite = true := F.isFinite_mul_half hwy
    have hdx0 : F.mul wws.x F.half ≠ F.zero := F.mul_half_ne_zero hwx hwx0
    have hdy0 : F.mul wws.y F.half ≠ F.zero := F.mul_half_ne_zero hwy hwy0
    have hsx1 : (F.div (F.sub occ.start.x cp.x) (F.mul wws.x F.half)).isFinite = true :=
      F.isFinite_div (F.isFinite_sub hsx hcx) hdx hdx0
    have hsy1 : (F.div (F.sub occ.start.y cp.y) (F.mul wws.y F.half)).isFinite = true :=
      F.isFinite_div (F.isFinite_sub hsy hcy) hdy hdy0
    have hex1 : (F.div (F.sub occ.«end».x cp.x) (F.mul wws.x F.half)).isFinite = true :=
      F.isFinite_div (F.isFinite_sub hex hcx) hdx hdx0
    have hey1 : (F.div (F.sub occ.«end».y cp.y) (F.mul wws.y F.half)).isFinite = true :=
      F.isFinite_div (F.isFinite_sub hey hcy) hdy hdy0
    have hlx1 : (F.div (F.sub light.pos.x cp.x) (F.mul wws.x F.half)).isFinite = true :=
      F.isFinite_div (F.isFinite_sub hlx hcx) hdx hdx0
    have hly1 : (F.div (F.sub light.pos.y cp.y) (F.mul wws.y F.half)).isFinite = true :=
      F.isFinite_div (F.isFinite_sub hly hcy) hdy hdy0
    intro v hv
    by_cases h : (intersect_aabb occ.start (FVec2.sub occ.start light.pos) bl tr
        || intersect_aabb occ.«end» (FVec2.sub occ.«end» light.pos) bl tr) = true
    · unfold occVerts at hv
      rw [if_pos h] at hv
      simp only [FVec2.div, FVec2.sub, FVec2.smul, List.mem_cons, List.not_mem_nil,
        or_false] at hv
      rcases hv with rfl | rfl | rfl | rfl | rfl | rfl <;>
        refine ⟨?_, ?_, ?_⟩ <;>
        first
          | exact F.isNan_eq_false_of_isFinite (by assumption)
          | exact F.isNan_eq_false_of_isFinite (F.isFinite_sub (by assumption) (by assumption))
          | rfl
    · simp [occVerts, h] at hv

theorem C8_witness :
    (Vertex.mk (F.finite 0, F.finite 0, F.one) (F.finite 0, F.zero)).position.1.isNan = false ∧
    (Vertex.mk (F.finite 0, F.finite 0, F.one) (F.finite 0, F.zero)).position.2.1.isNan = false ∧
    (Vertex.mk (F.finite 0, F.finite 0, F.one) (F.finite 0, F.zero)).position.2.2.isNan = false :=
  (C8_degenerate_safe ⟨⟨F.finite 0, F.finite 0⟩, F.finite 1, ⟨F.one, F.zero, F.zero, F.one⟩⟩
      ⟨F.finite 0, F.finite 0⟩ ⟨F.finite 2, F.finite 2⟩
      ⟨F.finite (-1), F.finite (-1)⟩ ⟨F.finite 1, F.finite 1⟩
      ⟨⟨F.finite 0, F.finite 0⟩, ⟨F.finite 0, F.finite 0⟩, F.one⟩
      rfl rfl rfl rfl rfl rfl rfl rfl rfl rfl (by decide) (by decide)).2
    (Vertex.mk (F.finite 0, F.finite 0, F.one) (F.finite 0, F.zero)) (by decide)

theorem shadowMaskLoads_cons_mask (op : LoadOp) (verts : List Vertex)
    (u : Option LightUniform) (rest : List Pass) :
    shadowMaskLoads (⟨Pipeline.shadowMask, op, verts, u⟩ :: rest) = op :: shadowMaskLoads rest := by
  simp [shadowMaskLoads]

theorem shadowMaskLoads_cons_add (op : LoadOp) (verts : List Vertex)
    (u : Option LightUniform) (rest : List Pass) :
    shadowMaskLoads (⟨Pipeline.addLight, op, verts, u⟩ :: rest) = shadowMaskLoads rest := by
  simp [shadowMaskLoads]

theorem addLightUniforms_cons_none (pl : Pipeline) (op : LoadOp) (verts : List Vertex)
    (rest : List Pass) :
    addLightUniforms (⟨pl, op, verts, none⟩ :: rest) = addLightUniforms rest := by
  simp [addLightUniforms]

theorem addLightUniforms_cons_some (pl : Pipeline) (op : LoadOp) (verts : List Vertex)
    (u : LightUniform) (rest : List Pass) :
    addLightUniforms (⟨pl, op, verts, some u⟩ :: rest) = u :: addLightUniforms rest := by
  simp [addLightUniforms]

/-- Through the whole per-light loop, the shadow-mask passes carry the
threaded load op first and `Load` afterwards. -/
theorem lightLoop_shadowMaskLoads (occl : List OcclusionSegment) (cp wws bl tr : FVec2)
    (n : Nat) (ls : List LightData) :
    ∀ (i : Nat) (op : LoadOp) (tex : Tex),
      shadowMaskLoads (lightLoop occl cp wws bl tr n ls i op tex).1 =
        match ls with
        | [] => []
        | _ :: t => op :: List.replicate t.length LoadOp.load := by
  induction ls with
  | nil => intro i op tex; rfl
  | cons l t ih =>
      intro i op tex
      simp only [lightLoop, shadowMaskLoads_cons_mask, shadowMaskLoads_cons_add, ih]
      cases t <;> simp [List.replicate_succ]

/-- Through the whole per-light loop, the add-light passes bind exactly the
uniforms of the lights, indexed from the threaded start index. -/
theorem lightLoop_uniforms (occl : List OcclusionSegment) (cp wws bl tr : FVec2)
    (n : Nat) (ls : List LightData) :
    ∀ (i : Nat) (op : LoadOp) (tex : Tex),
      addLightUniforms (lightLoop occl cp wws bl tr n ls i op tex).1 =
        (List.enumFrom i ls).map (fun p => lightUniform p.2 p.1 n) := by
  induction ls with
  | nil => intro i op tex; rfl
  | cons l t ih =>
      intro i op tex
      simp only [lightLoop, addLightUniforms_cons_none, addLightUniforms_cons_some, ih,
        List.enumFrom, List.map_cons]

/-- Claim C7: across the compositing loop, the shadow-mask target is
cleared (to the baseline color) only on the first light's pass A; every
subsequent shadow-mask pass loads the existing contents. -/
theorem C7_clear_once (w : Window) (lights : List LightData)
    (occlusions : List OcclusionSegment) (cam : Transform) :
    Except.map (fun r => shadowMaskLoads r.passes) (get_lightmap (some w) lights occlusions cam) =
      Except.ok (match lights with
        | [] => []
        | _ :: rest => LoadOp.clear clearColor :: List.replicate rest.length LoadOp.load) := by
  simp only [get_lightmap, Except.map]
  exact congrArg Except.ok (lightLoop_shadowMaskLoads _ _ _ _ _ _ _ 0 (LoadOp.clear clearColor)
    Tex.created)

/-- Claim C6: the per-light uniform's is-last-light component is computed
as `index == count - 1`: it is `1.0` exactly for index `n - 1` and `0.0`
for every earlier index, and the uniforms bound over a whole frame carry
those flags in light order. -/
theorem C6_is_last_light :
    (∀ (l : LightData) (i n : Nat), n ≠ 0 → i < n →
      (((lightUniform l i n).last.1 = F.one) ↔ i = n - 1) ∧
      (i < n - 1 → (lightUniform l i n).last.1 = F.zero)) ∧
    (∀ (w : Window) (lights : List LightData) (occlusions : List OcclusionSegment)
        (cam : Transform),
      Except.map (fun r => (addLightUniforms r.passes).map (fun u => u.last.1))
          (get_lightmap (some w) lights occlusions cam) =
        Except.ok ((List.range lights.length).map
          (fun i => if i = lights.length - 1 then F.one else F.zero))) := by
  constructor
  · intro l i n _ _
    have hone : F.one ≠ F.zero := by decide
    constructor
    · by_cases hi : i = n - 1 <;> simp [lightUniform, hi, hone, hone.symm]
    · intro hlt
      have hi : i ≠ n - 1 := Nat.ne_of_lt hlt
      simp [lightUniform, hi]
  · intro w lights occlusions cam
    simp only [get_lightmap, Except.map]
    refine congrArg Except.ok ?_
    rw [lightLoop_uniforms, List.map_map]
    have hsplit : ((fun u : LightUniform => u.last.1) ∘
          fun p : Nat × LightData => lightUniform p.2 p.1 lights.length) =
        ((fun i => if i = lights.length - 1 then F.one else F.zero) ∘ Prod.fst) := rfl
    rw [hsplit, ← List.map_map, List.enumFrom_map_fst, List.range_eq_range']

theorem C6_witness :
    (lightUniform ⟨⟨F.finite 0, F.finite 0⟩, F.finite 1, ⟨F.one, F.zero, F.zero, F.one⟩⟩
        1 2).last.1 = F.one :=
  ((C6_is_last_light.1 ⟨⟨F.finite 0, F.finite 0⟩, F.finite 1, ⟨F.one, F.zero, F.zero, F.one⟩⟩
      1 2 (by decide) (by decide)).1).mpr rfl

/-- Claim C4, counterexample to the claim as stated: with an empty light
list the loop never runs, so the clear op is never executed; the exported
lightmap is the freshly created texture, which reads back as all zeros —
not the clear value `(1, 0, 0, 0)` the claim asserts. -/
theorem C4_counterexample :
    Except.map exportedPixel
        (get_lightmap (some ⟨F.finite 100, F.finite 100⟩) [] [] idTransform) =
      Except.ok (some ⟨0, 0, 0, 0⟩) ∧
    (⟨0, 0, 0, 0⟩ : Color4) ≠ clearColor := by
  exact ⟨rfl, by decide⟩

/-- Claim C4 as amended: with zero active lights the exported lightmap is
still deterministic — it is the zero-initialized backing texture, every
pixel reading `(0, 0, 0, 0)` — but it is the creation-time zero value, not
the render-pass clear value, which is applied only once a first light
runs. -/
theorem C4_zero_lights (w : Window) (cam : Transform) (occlusions : List OcclusionSegment) :
    Except.map (fun r => (r.finalTex, exportedPixel r))
        (get_lightmap (some w) [] occlusions cam) =
      Except.ok (Tex.created, some ⟨0, 0, 0, 0⟩) := rfl

end A8
